import Mathlib

/-!
Shallow embedding of the LeetGaming Solana smart-wallet program
(programs/solana-wallet/src/lib.rs) and verification of its
specification's claims.

Modelling conventions:
* `Pubkey` and the 32-byte `wallet_id` are modelled as `Nat` identifiers.
* `u64` fields are `Nat`s; arithmetic that the Rust release build performs
  with wrap-around is taken modulo `2 ^ 64` (`U64_MOD`), and `u8` arithmetic
  modulo `256` (`U8_MOD`).
* `i64` timestamps are `Int`; Rust integer division truncates toward zero,
  which is `Int.tdiv`, and `i64` addition in a release build wraps in
  two's complement, modelled by `i64_wrap`.
* Each instruction handler becomes a pure function
  `state → args → Except WalletError state`.  On-chain, a returned error
  aborts the transaction and all account writes are rolled back, so the
  error branch carries no state.
-/

def U64_MOD : Nat := 2 ^ 64

def U8_MOD : Nat := 256

/-- Two's-complement normalization of an `i64` value: the release-build
result of an `i64` operation whose exact value is `x` lies in
[−2^63, 2^63), congruent to `x` mod 2^64. -/
def i64_wrap (x : Int) : Int :=
  Int.emod (x + 2 ^ 63) (2 ^ 64) - 2 ^ 63

/-- Guardian classification (informational), from `enum GuardianType`. -/
inductive GuardianType where
  | Email
  | Phone
  | Wallet
  | Hardware
  | Institution
deriving DecidableEq

/-- From `struct PendingRecovery`: note `approvals` is a bare `u8` counter,
not a set of guardian identities. -/
structure PendingRecovery where
  new_authority : Nat
  initiated_at : Int
  approvals : Nat
  executed : Bool
deriving DecidableEq

/-- From `struct SmartWallet` (the `bump` PDA seed is irrelevant to the
claims and kept for fidelity). -/
structure SmartWallet where
  owner : Nat
  wallet_id : Nat
  authority : Nat
  guardian_threshold : Nat
  guardian_count : Nat
  daily_limit : Nat
  daily_spent : Nat
  last_reset_day : Int
  recovery_delay : Int
  pending_recovery : Option PendingRecovery
  nonce : Nat
  is_frozen : Bool
  bump : Nat
deriving DecidableEq

/-- From `struct Guardian` (an Anchor account separate from the wallet). -/
structure Guardian where
  wallet : Nat
  pubkey : Nat
  guardian_type : GuardianType
  added_at : Int
  is_active : Bool
deriving DecidableEq

/-- From `enum WalletError` in lib.rs.  There is no `InvalidConfig`
variant in the source. -/
inductive WalletError where
  | WalletFrozen
  | DailyLimitExceeded
  | InsufficientSignatures
  | TooManyGuardians
  | GuardianInactive
  | RecoveryAlreadyPending
  | NoRecoveryPending
  | InsufficientApprovals
  | RecoveryDelayNotMet
  | InvalidSignature
  | Unauthorized
deriving DecidableEq

/-- `initialize_wallet`: writes every field of the fresh wallet account.
The source performs no validation of `guardian_threshold` at all. -/
def initialize_wallet (now : Int) (owner : Nat) (wallet_id : Nat)
    (authority : Nat) (guardian_threshold : Nat) (daily_limit : Nat)
    (recovery_delay : Int) (bump : Nat) : Except WalletError SmartWallet :=
  .ok {
    owner := owner
    wallet_id := wallet_id
    authority := authority
    guardian_threshold := guardian_threshold
    guardian_count := 0
    daily_limit := daily_limit
    daily_spent := 0
    last_reset_day := Int.tdiv now 86400
    recovery_delay := recovery_delay
    pending_recovery := none
    nonce := 0
    is_frozen := false
    bump := bump
  }

/-- `add_guardian`: caps the registry at 7, creates the guardian account
(active), increments `guardian_count`.  The wallet `nonce` is untouched. -/
def add_guardian (now : Int) (w : SmartWallet) (guardian_pubkey : Nat)
    (guardian_type : GuardianType) :
    Except WalletError (SmartWallet × Guardian) :=
  if w.guardian_count < 7 then
    .ok ({ w with guardian_count := (w.guardian_count + 1) % U8_MOD },
      { wallet := w.wallet_id
        pubkey := guardian_pubkey
        guardian_type := guardian_type
        added_at := now
        is_active := true })
  else
    .error .TooManyGuardians

/-- Second half of `transfer_spl`, applied to the wallet after the lazy
daily reset: the wrap-around (`u64`) daily-limit check, then the CPI
token transfer (external) and the `daily_spent`/`nonce` updates. -/
def spend_checked (w1 : SmartWallet) (amount : Nat) :
    Except WalletError SmartWallet :=
  if (w1.daily_spent + amount) % U64_MOD ≤ w1.daily_limit then
    .ok { w1 with
      daily_spent := (w1.daily_spent + amount) % U64_MOD
      nonce := (w1.nonce + 1) % U64_MOD }
  else
    .error .DailyLimitExceeded

/-- `transfer_spl`: freeze check, lazy daily reset, then the daily-limit
check and spend (`spend_checked`).  A failed `require!` aborts the whole
transaction, so the day-reset write is also rolled back on error. -/
def transfer_spl (now : Int) (w : SmartWallet) (amount : Nat) :
    Except WalletError SmartWallet :=
  if w.is_frozen then .error .WalletFrozen
  else
    spend_checked
      (if Int.tdiv now 86400 > w.last_reset_day then
        { w with daily_spent := 0, last_reset_day := Int.tdiv now 86400 }
      else w)
      amount

/-- `execute_transaction`: freeze check, then a bare count of supplied
signature blobs against `guardian_threshold`.  No cryptographic
verification is performed and no wallet field is written (the handler
takes the wallet immutably and only emits an event). -/
def execute_transaction (w : SmartWallet) (instruction_data : List Nat)
    (signatures : List (List Nat)) : Except WalletError SmartWallet :=
  if w.is_frozen then .error .WalletFrozen
  else if signatures.length < w.guardian_threshold then
    .error .InsufficientSignatures
  else .ok w

/-- `initiate_recovery`: rejects if a recovery is already pending,
otherwise records `PendingRecovery { new_authority, initiated_at: now,
approvals: 0, executed: false }`.  The `nonce` is untouched. -/
def initiate_recovery (now : Int) (w : SmartWallet) (new_authority : Nat) :
    Except WalletError SmartWallet :=
  match w.pending_recovery with
  | some _ => .error .RecoveryAlreadyPending
  | none => .ok { w with pending_recovery := some {
      new_authority := new_authority
      initiated_at := now
      approvals := 0
      executed := false } }

/-- `approve_recovery`: requires an active guardian account and a pending
recovery, then does `recovery.approvals += 1` — a `u8` counter increment
that never inspects which guardian is calling.  The `nonce` is
untouched. -/
def approve_recovery (w : SmartWallet) (guardian : Guardian) :
    Except WalletError SmartWallet :=
  if ¬ guardian.is_active then .error .GuardianInactive
  else
    match w.pending_recovery with
    | none => .error .NoRecoveryPending
    | some r =>
      let r1 : PendingRecovery := { r with approvals := (r.approvals + 1) % U8_MOD }
      .ok { w with pending_recovery := some r1 }

/-- `execute_recovery`: requires a pending recovery, quorum
(`approvals ≥ guardian_threshold`), and the elapsed delay; on success
installs the new authority, clears the pending recovery and increments
the `nonce`.  The deadline `initiated_at + recovery_delay` is an `i64`
sum, which wraps in a release build (`i64_wrap`). -/
def execute_recovery (now : Int) (w : SmartWallet) :
    Except WalletError SmartWallet :=
  match w.pending_recovery with
  | none => .error .NoRecoveryPending
  | some r =>
    if r.approvals < w.guardian_threshold then .error .InsufficientApprovals
    else if now < i64_wrap (r.initiated_at + w.recovery_delay) then
      .error .RecoveryDelayNotMet
    else .ok { w with
      authority := r.new_authority
      pending_recovery := none
      nonce := (w.nonce + 1) % U64_MOD }

/-- `freeze_wallet`: unconditionally sets the freeze flag. -/
def freeze_wallet (w : SmartWallet) : Except WalletError SmartWallet :=
  .ok { w with is_frozen := true }

/-- `unfreeze_wallet`: unconditionally clears the freeze flag.  The only
gate is the `authority` signer in the `UnfreezeWallet` account context;
no guardian account or approval count is read. -/
def unfreeze_wallet (w : SmartWallet) : Except WalletError SmartWallet :=
  .ok { w with is_frozen := false }

/-- `update_daily_limit`: unconditionally overwrites `daily_limit`. -/
def update_daily_limit (w : SmartWallet) (new_limit : Nat) :
    Except WalletError SmartWallet :=
  .ok { w with daily_limit := new_limit }

/-!
Concrete states used to exercise the operations.
-/

/-- A baseline healthy wallet: two-guardian threshold, 1000 daily limit,
nothing pending, not frozen. -/
def baseWallet : SmartWallet := {
  owner := 1
  wallet_id := 2
  authority := 3
  guardian_threshold := 2
  guardian_count := 3
  daily_limit := 1000
  daily_spent := 0
  last_reset_day := 0
  recovery_delay := 3600
  pending_recovery := none
  nonce := 5
  is_frozen := false
  bump := 255
}

/-- An active guardian of `baseWallet`. -/
def guardianA : Guardian := {
  wallet := 2
  pubkey := 77
  guardian_type := GuardianType.Wallet
  added_at := 0
  is_active := true
}

/-- A pending recovery toward authority 99, initiated at time 0, with `n`
approvals recorded. -/
def recAt (n : Nat) : PendingRecovery :=
  { new_authority := 99, initiated_at := 0, approvals := n, executed := false }

/-- `baseWallet` with a fresh pending recovery (no approvals yet). -/
def wPending : SmartWallet :=
  { baseWallet with pending_recovery := some (recAt 0) }

/-- `wPending` after one approval. -/
def wPending1 : SmartWallet :=
  { baseWallet with pending_recovery := some (recAt 1) }

/-- `wPending` after two approvals. -/
def wPending2 : SmartWallet :=
  { baseWallet with pending_recovery := some (recAt 2) }

/-- Claim C1: the claim states that N successive `approve_recovery` calls by
one and the same active guardian contribute exactly 1 toward the approval
count (set-insertion semantics).  In the code the count is a bare
counter: two calls by the identical guardian `guardianA` raise the count
from 0 to 2, and — the wallet's `guardian_threshold` being 2 — this
single guardian alone satisfies the quorum check of `execute_recovery`. -/
theorem C1_counterexample :
    approve_recovery wPending guardianA = .ok wPending1 ∧
    approve_recovery wPending1 guardianA = .ok wPending2 ∧
    wPending2.pending_recovery = some (recAt 2) ∧
    wPending2.guardian_threshold = 2 ∧
    execute_recovery 3600 wPending2 =
      .ok { wPending2 with authority := 99, pending_recovery := none, nonce := 6 } := by
  refine ⟨rfl, rfl, rfl, rfl, rfl⟩

/-- Claim C1 (amended):  `approve_recovery` by any active guardian on any
pending recovery increments the `approvals` counter by one (mod 2^8),
independent of the caller's identity: N calls by the same guardian
contribute N, not 1. -/
theorem C1_amended (w : SmartWallet) (g : Guardian) (r : PendingRecovery)
    (hg : g.is_active = true) (hr : w.pending_recovery = some r) :
    approve_recovery w g =
      .ok { w with
        pending_recovery := some { r with approvals := (r.approvals + 1) % U8_MOD } } := by
  simp [approve_recovery, hg, hr]

/-- Claim C1 (amended) witness at a concrete state: one approval on `wPending` by
`guardianA` yields count 1. -/
theorem C1_amended_witness :
    approve_recovery wPending guardianA = .ok wPending1 :=
  C1_amended wPending guardianA (recAt 0) rfl rfl

/-- Arbitrary garbage signature blobs: two byte-strings that cannot be
valid signatures over anything. -/
def garbageSigs : List (List Nat) := [[0], [0]]

/-- Claim C2: the claim states that, past the freeze and count checks,
`execute_transaction` cryptographically verifies that the signers
endorsed the exact instruction payload and fails with `InvalidSignature`
when that verification fails.  In the code there is no verification at
all: on the unfrozen `baseWallet` (threshold 2), two garbage one-byte
blobs that attest to nothing make the call succeed. -/
theorem C2_counterexample :
    baseWallet.is_frozen = false ∧
    baseWallet.guardian_threshold = 2 ∧
    execute_transaction baseWallet [1, 2, 3] garbageSigs = .ok baseWallet := by
  refine ⟨rfl, rfl, rfl⟩

/-- Claim C2 (amended):  `execute_transaction` checks the freeze flag, then the
bare count of signature blobs against `guardian_threshold`, and succeeds
on any payload whenever the count suffices; `InvalidSignature` is never
returned and no cryptographic verification takes place. -/
theorem C2_amended (w : SmartWallet) (data : List Nat)
    (sigs : List (List Nat)) :
    execute_transaction w data sigs ≠ .error .InvalidSignature ∧
    (w.is_frozen = true → execute_transaction w data sigs = .error .WalletFrozen) ∧
    (w.is_frozen = false → sigs.length < w.guardian_threshold →
      execute_transaction w data sigs = .error .InsufficientSignatures) ∧
    (w.is_frozen = false → w.guardian_threshold ≤ sigs.length →
      execute_transaction w data sigs = .ok w) := by
  refine ⟨?_, ?_, ?_, ?_⟩
  · unfold execute_transaction
    split
    · simp
    · split <;> simp
  · intro h; simp [execute_transaction, h]
  · intro h hlen; simp [execute_transaction, h, hlen]
  · intro h hlen; simp [execute_transaction, h, Nat.not_lt.mpr hlen]

/-- Claim C2 (amended) witness at a concrete state: the quorum-count branch succeeds on
`baseWallet` with two garbage blobs. -/
theorem C2_amended_witness :
    execute_transaction baseWallet [1, 2, 3] garbageSigs = .ok baseWallet :=
  (C2_amended baseWallet [1, 2, 3] garbageSigs).2.2.2 rfl (by decide)

/-- `baseWallet`, frozen. -/
def wFrozen : SmartWallet := { baseWallet with is_frozen := true }

/-- Claim C4: the claim states that unfreezing requires a guardian quorum and
that an authority-alone call on a frozen wallet does not clear
`is_frozen`.  In the code `unfreeze_wallet` reads no guardian data at
all (its account context has only the wallet and the authority signer):
on the frozen `wFrozen` it immediately clears the flag. -/
theorem C4_counterexample :
    wFrozen.is_frozen = true ∧
    unfreeze_wallet wFrozen = .ok { wFrozen with is_frozen := false } := by
  refine ⟨rfl, rfl⟩

/-- Claim C4 (amended):  `unfreeze_wallet` unconditionally clears `is_frozen`
for any caller holding the authority key; no guardian approval is
consulted. -/
theorem C4_amended (w : SmartWallet) :
    unfreeze_wallet w = .ok { w with is_frozen := false } := rfl

/-- Claim C7: the claim states that initialization with
`guardian_threshold == 0` fails with `InvalidConfig` and commits no
state.  In the code there is no such check (and no `InvalidConfig`
variant in `WalletError`): initializing with threshold 0 succeeds and
commits the full wallet state. -/
theorem C7_counterexample :
    initialize_wallet 0 1 2 3 0 1000 3600 255 = .ok {
      owner := 1
      wallet_id := 2
      authority := 3
      guardian_threshold := 0
      guardian_count := 0
      daily_limit := 1000
      daily_spent := 0
      last_reset_day := 0
      recovery_delay := 3600
      pending_recovery := none
      nonce := 0
      is_frozen := false
      bump := 255 } := by
  rfl

/-- Claim C7 (amended):  `initialize_wallet` performs no validation of
`guardian_threshold` (or any other argument): it always succeeds and
commits the supplied threshold verbatim, including 0. -/
theorem C7_amended (now : Int) (owner wallet_id authority : Nat)
    (guardian_threshold daily_limit : Nat) (recovery_delay : Int) (bump : Nat) :
    ∃ w : SmartWallet,
      initialize_wallet now owner wallet_id authority guardian_threshold
        daily_limit recovery_delay bump = .ok w ∧
      w.guardian_threshold = guardian_threshold ∧ w.nonce = 0 ∧
      w.is_frozen = false := by
  exact ⟨_, rfl, rfl, rfl, rfl⟩

/-!
Helper lemmas shared by several claims: elimination form for a successful
`transfer_spl`.
-/

/-- Behaviour of `execute_recovery` when no recovery is pending. -/
lemma execute_recovery_none {now : Int} {w : SmartWallet}
    (hp : w.pending_recovery = none) :
    execute_recovery now w = .error .NoRecoveryPending := by
  unfold execute_recovery; rw [hp]

/-- Behaviour of `execute_recovery` on a pending recovery `r`: the quorum
check, then the delay check, then the authority swap. -/
lemma execute_recovery_some {now : Int} {w : SmartWallet}
    {r : PendingRecovery} (hp : w.pending_recovery = some r) :
    execute_recovery now w =
      (if r.approvals < w.guardian_threshold then
        .error .InsufficientApprovals
      else if now < i64_wrap (r.initiated_at + w.recovery_delay) then
        .error .RecoveryDelayNotMet
      else .ok { w with
        authority := r.new_authority
        pending_recovery := none
        nonce := (w.nonce + 1) % U64_MOD }) := by
  unfold execute_recovery; rw [hp]

/-- Case analysis for a successful `transfer_spl`: either the call stayed
within the current day (no reset) or it crossed a day boundary and reset
`daily_spent` first; in both cases the result wallet is pinned down. -/
lemma transfer_spl_ok_cases {now : Int} {w : SmartWallet} {a : Nat}
    {w' : SmartWallet} (h : transfer_spl now w a = .ok w') :
    w.is_frozen = false ∧
    ((Int.tdiv now 86400 ≤ w.last_reset_day ∧
        (w.daily_spent + a) % U64_MOD ≤ w.daily_limit ∧
        w' = { w with
          daily_spent := (w.daily_spent + a) % U64_MOD
          nonce := (w.nonce + 1) % U64_MOD }) ∨
      (w.last_reset_day < Int.tdiv now 86400 ∧
        (0 + a) % U64_MOD ≤ w.daily_limit ∧
        w' = { w with
          daily_spent := (0 + a) % U64_MOD
          last_reset_day := Int.tdiv now 86400
          nonce := (w.nonce + 1) % U64_MOD })) := by
  unfold transfer_spl at h
  split at h
  · cases h
  · refine ⟨by simp_all, ?_⟩
    split at h
    · right
      unfold spend_checked at h
      split at h
      · cases h
        exact ⟨by omega, by simp_all, rfl⟩
      · cases h
    · left
      unfold spend_checked at h
      split at h
      · cases h
        exact ⟨by omega, by simp_all, rfl⟩
      · cases h

/-- A successful `transfer_spl` always bumps the nonce (mod 2^64) and
preserves the limit; the resulting `daily_spent` satisfies the limit. -/
lemma transfer_spl_ok_facts {now : Int} {w : SmartWallet} {a : Nat}
    {w' : SmartWallet} (h : transfer_spl now w a = .ok w') :
    w'.nonce = (w.nonce + 1) % U64_MOD ∧
    w'.daily_limit = w.daily_limit ∧
    w'.daily_spent ≤ w'.daily_limit := by
  obtain ⟨-, hc | hc⟩ := transfer_spl_ok_cases h <;>
    obtain ⟨-, hle, rfl⟩ := hc <;> exact ⟨rfl, rfl, hle⟩

/-- Claim C3: the claim states that every successful state-changing
operation increments `nonce` by one.  In the code `freeze_wallet`
succeeds on `baseWallet`, flips `is_frozen`, and leaves `nonce` at its
old value 5. -/
theorem C3_counterexample :
    freeze_wallet baseWallet = .ok wFrozen ∧
    wFrozen.is_frozen ≠ baseWallet.is_frozen ∧
    wFrozen.nonce = baseWallet.nonce := by
  refine ⟨rfl, by decide, rfl⟩

/-- Claim C3 (amended): only `transfer_spl` and `execute_recovery`
increment `nonce` (mod 2^64) on success.  `add_guardian`,
`initiate_recovery`, `approve_recovery`, `freeze_wallet`,
`unfreeze_wallet` and `update_daily_limit` all succeed while mutating
wallet or guardian state and leave `nonce` unchanged, and
`execute_transaction` changes nothing at all. -/
theorem C3_amended :
    (∀ (now : Int) (w : SmartWallet) (a : Nat) (w' : SmartWallet),
      transfer_spl now w a = .ok w' → w'.nonce = (w.nonce + 1) % U64_MOD) ∧
    (∀ (now : Int) (w w' : SmartWallet),
      execute_recovery now w = .ok w' → w'.nonce = (w.nonce + 1) % U64_MOD) ∧
    (∀ (now : Int) (w : SmartWallet) (p : Nat) (t : GuardianType)
      (w' : SmartWallet) (g : Guardian),
      add_guardian now w p t = .ok (w', g) →
        w'.nonce = w.nonce ∧ w'.guardian_count = w.guardian_count + 1) ∧
    (∀ (now : Int) (w : SmartWallet) (na : Nat) (w' : SmartWallet),
      initiate_recovery now w na = .ok w' →
        w'.nonce = w.nonce ∧
        w'.pending_recovery = some {
          new_authority := na
          initiated_at := now
          approvals := 0
          executed := false }) ∧
    (∀ (w : SmartWallet) (g : Guardian) (w' : SmartWallet),
      approve_recovery w g = .ok w' → w'.nonce = w.nonce) ∧
    (∀ (w w' : SmartWallet),
      freeze_wallet w = .ok w' → w'.nonce = w.nonce ∧ w'.is_frozen = true) ∧
    (∀ (w w' : SmartWallet),
      unfreeze_wallet w = .ok w' → w'.nonce = w.nonce ∧ w'.is_frozen = false) ∧
    (∀ (w : SmartWallet) (l : Nat) (w' : SmartWallet),
      update_daily_limit w l = .ok w' →
        w'.nonce = w.nonce ∧ w'.daily_limit = l) ∧
    (∀ (w : SmartWallet) (d : List Nat) (s : List (List Nat))
      (w' : SmartWallet),
      execute_transaction w d s = .ok w' → w' = w) := by
  refine ⟨?_, ?_, ?_, ?_, ?_, ?_, ?_, ?_, ?_⟩
  · intro now w a w' h
    exact (transfer_spl_ok_facts h).1
  · intro now w w' h
    rcases hp : w.pending_recovery with _ | r
    · rw [execute_recovery_none hp] at h; cases h
    · rw [execute_recovery_some hp] at h
      by_cases h1 : r.approvals < w.guardian_threshold
      · rw [if_pos h1] at h; cases h
      · rw [if_neg h1] at h
        by_cases h2 : now < i64_wrap (r.initiated_at + w.recovery_delay)
        · rw [if_pos h2] at h; cases h
        · rw [if_neg h2] at h; cases h; rfl
  · intro now w p t w' g h
    unfold add_guardian at h
    split at h
    · cases h
      refine ⟨rfl, ?_⟩
      show (w.guardian_count + 1) % U8_MOD = w.guardian_count + 1
      have : w.guardian_count < 7 := by assumption
      exact Nat.mod_eq_of_lt (by unfold U8_MOD; omega)
    · cases h
  · intro now w na w' h
    unfold initiate_recovery at h
    rcases hp : w.pending_recovery with _ | r <;> rw [hp] at h
    · cases h; exact ⟨rfl, rfl⟩
    · cases h
  · intro w g w' h
    unfold approve_recovery at h
    split at h
    · cases h
    · rcases hp : w.pending_recovery with _ | r <;> rw [hp] at h
      · cases h
      · cases h; rfl
  · intro w w' h
    cases h; exact ⟨rfl, rfl⟩
  · intro w w' h
    cases h; exact ⟨rfl, rfl⟩
  · intro w l w' h
    cases h; exact ⟨rfl, rfl⟩
  · intro w d s w' h
    unfold execute_transaction at h
    split at h
    · cases h
    · split at h
      · cases h
      · cases h; rfl

/-- Claim C3 (amended) witness at a concrete state: freezing `baseWallet`
leaves its nonce at 5 while setting the freeze flag. -/
theorem C3_amended_witness :
    wFrozen.nonce = baseWallet.nonce ∧ wFrozen.is_frozen = true :=
  C3_amended.2.2.2.2.2.1 baseWallet wFrozen rfl

/-- A pending recovery toward authority 99, initiated at time 1, with 2
approvals recorded. -/
def recMax : PendingRecovery :=
  { new_authority := 99, initiated_at := 1, approvals := 2, executed := false }

/-- `baseWallet` with `recovery_delay` at `i64::MAX` (an unvalidated,
caller-supplied initialization argument) and `recMax` pending. -/
def wPendingMax : SmartWallet :=
  { baseWallet with recovery_delay := 2 ^ 63 - 1, pending_recovery := some recMax }

/-- Claim C6: the claim states that `execute_recovery` fails with
`RecoveryDelayNotMet` whenever `now < initiated_at + recovery_delay`.
The source computes that deadline as an `i64` sum, which wraps: on
`wPendingMax` (`initiated_at = 1`, `recovery_delay = 2^63 − 1`, quorum
met) the wrapped deadline is `−2^63`, so at time 100 — far before the
exact-arithmetic deadline — the recovery executes immediately instead
of failing. -/
theorem C6_counterexample :
    (100 : Int) < recMax.initiated_at + wPendingMax.recovery_delay ∧
    wPendingMax.pending_recovery = some recMax ∧
    wPendingMax.guardian_threshold ≤ recMax.approvals ∧
    execute_recovery 100 wPendingMax =
      .ok { wPendingMax with
        authority := 99
        pending_recovery := none
        nonce := 6 } := by
  refine ⟨by decide, rfl, by decide, rfl⟩

/-- Claim C6 (amended): with the deadline taken as the wrapped `i64` sum
`i64_wrap (initiated_at + recovery_delay)` — which for any
non-overflowing configuration coincides with the exact sum —
`execute_recovery` fails with `NoRecoveryPending`,
`InsufficientApprovals` or `RecoveryDelayNotMet` exactly as described,
and succeeds exactly when both quorum and (wrapped) delay hold,
installing the new authority, clearing the pending recovery and bumping
the nonce (mod 2^64). -/
theorem C6_amended (now : Int) (w : SmartWallet) :
    (w.pending_recovery = none →
      execute_recovery now w = .error .NoRecoveryPending) ∧
    (∀ r, w.pending_recovery = some r →
      (r.approvals < w.guardian_threshold →
        execute_recovery now w = .error .InsufficientApprovals) ∧
      (w.guardian_threshold ≤ r.approvals →
        now < i64_wrap (r.initiated_at + w.recovery_delay) →
        execute_recovery now w = .error .RecoveryDelayNotMet) ∧
      (w.guardian_threshold ≤ r.approvals →
        i64_wrap (r.initiated_at + w.recovery_delay) ≤ now →
        execute_recovery now w = .ok { w with
          authority := r.new_authority
          pending_recovery := none
          nonce := (w.nonce + 1) % U64_MOD })) := by
  refine ⟨fun hp => execute_recovery_none hp, fun r hp => ⟨?_, ?_, ?_⟩⟩
  · intro hlt
    rw [execute_recovery_some hp, if_pos hlt]
  · intro hge hdelay
    rw [execute_recovery_some hp, if_neg (Nat.not_lt.mpr hge), if_pos hdelay]
  · intro hge hdone
    rw [execute_recovery_some hp, if_neg (Nat.not_lt.mpr hge),
      if_neg (not_lt.mpr hdone)]

/-- Claim C6 (amended) witness at a concrete state: on `wPending2`
(threshold 2, 2 approvals, initiated at 0, delay 3600 — no overflow, so
the wrapped deadline is the exact one) execution at time 3600
succeeds. -/
theorem C6_amended_witness :
    execute_recovery 3600 wPending2 = .ok { wPending2 with
      authority := (recAt 2).new_authority
      pending_recovery := none
      nonce := (wPending2.nonce + 1) % U64_MOD } :=
  (((C6_amended 3600 wPending2).2 (recAt 2) rfl).2.2
    (by decide) (by decide))

/-- Claim C8: at most one pending recovery — `initiate_recovery` fails
with `RecoveryAlreadyPending` whenever one is present (the aborted
transaction leaves it unchanged), and otherwise records the new pending
recovery with the given authority, the current time, zero approvals
recorded, and `executed = false`. -/
theorem C8_initiate_recovery (now : Int) (w : SmartWallet) (na : Nat) :
    (∀ r, w.pending_recovery = some r →
      initiate_recovery now w na = .error .RecoveryAlreadyPending) ∧
    (w.pending_recovery = none →
      initiate_recovery now w na = .ok { w with
        pending_recovery := some {
          new_authority := na
          initiated_at := now
          approvals := 0
          executed := false } }) := by
  constructor
  · intro r hr
    unfold initiate_recovery
    rw [hr]
  · intro h
    unfold initiate_recovery
    rw [h]

/-- Claim C8 witness at a concrete state: initiating on `baseWallet`
(nothing pending) at time 0 toward authority 99 yields `wPending`. -/
theorem C8_initiate_recovery_witness :
    initiate_recovery 0 baseWallet 99 = .ok wPending :=
  (C8_initiate_recovery 0 baseWallet 99).2 rfl

/-- Claim C9: a successful `execute_transaction` leaves the wallet
unchanged (in particular the nonce), so the identical call can be
repeated with the identical successful result. -/
theorem C9_execute_transaction_frame (w : SmartWallet) (data : List Nat)
    (sigs : List (List Nat)) (w' : SmartWallet)
    (h : execute_transaction w data sigs = .ok w') :
    w' = w ∧ execute_transaction w' data sigs = .ok w' := by
  unfold execute_transaction at h ⊢
  split at h
  · cases h
  · split at h
    · cases h
    · cases h
      refine ⟨rfl, ?_⟩
      simp_all

/-- Claim C9 witness at a concrete state: the successful call on
`baseWallet` leaves it unchanged and is repeatable. -/
theorem C9_execute_transaction_frame_witness :
    baseWallet = baseWallet ∧
    execute_transaction baseWallet [1, 2, 3] garbageSigs = .ok baseWallet :=
  C9_execute_transaction_frame baseWallet [1, 2, 3] garbageSigs baseWallet rfl

/-- `baseWallet` with 600 already spent today. -/
def wSpent600 : SmartWallet := { baseWallet with daily_spent := 600 }

/-- Claim C10: the daily-limit check adds with wrap-around `u64`
semantics.  On `wSpent600` (spent 600, limit 1000) and an amount of
2^64 − 200, the exact sum is ≥ 2^64 and far above the limit, but the
wrapped sum is 400 ≤ 1000, so the transfer is accepted and the stored
`daily_spent` also wraps to 400. -/
theorem C10_overflow_wrap :
    U64_MOD ≤ wSpent600.daily_spent + (U64_MOD - 200) ∧
    wSpent600.daily_limit < wSpent600.daily_spent + (U64_MOD - 200) ∧
    (wSpent600.daily_spent + (U64_MOD - 200)) % U64_MOD = 400 ∧
    (wSpent600.daily_spent + (U64_MOD - 200)) % U64_MOD ≤ wSpent600.daily_limit ∧
    transfer_spl 0 wSpent600 (U64_MOD - 200) =
      .ok { wSpent600 with daily_spent := 400, nonce := 6 } := by
  refine ⟨by decide, by decide, by decide, by decide, rfl⟩

/-- Sequencing of `transfer_spl` calls at one timestamp: returns the final
wallet together with the sum, in exact arithmetic, of the accepted
amounts (rejected calls leave the wallet untouched, as the aborted
transaction commits nothing). -/
def runDay (now : Int) (w : SmartWallet) : List Nat → SmartWallet × Nat
  | [] => (w, 0)
  | a :: rest =>
    match transfer_spl now w a with
    | .ok w' =>
      let p := runDay now w' rest
      (p.1, a + p.2)
    | .error _ => runDay now w rest

/-- Within one day (no reset applies) and with every amount small enough
that the `u64` addition cannot wrap, the accepted amounts fit in the
remaining budget. -/
lemma runDay_sum_le (now : Int) :
    ∀ (amounts : List Nat) (w : SmartWallet),
      w.daily_spent ≤ w.daily_limit →
      Int.tdiv now 86400 ≤ w.last_reset_day →
      (∀ a ∈ amounts, a + w.daily_limit < U64_MOD) →
      w.daily_spent + (runDay now w amounts).2 ≤ w.daily_limit := by
  intro amounts
  induction amounts with
  | nil =>
    intro w hs _ _
    simpa [runDay] using hs
  | cons a rest ih =>
    intro w hs hd ha
    cases htr : transfer_spl now w a with
    | error e =>
      have := ih w hs hd (fun b hb => ha b (List.mem_cons_of_mem _ hb))
      simpa [runDay, htr] using this
    | ok w' =>
      obtain ⟨-, hc | hc⟩ := transfer_spl_ok_cases htr
      · obtain ⟨-, hchk, rfl⟩ := hc
        have hmem := ha a (List.mem_cons_self a rest)
        have hnowrap : w.daily_spent + a < U64_MOD := by omega
        rw [Nat.mod_eq_of_lt hnowrap] at hchk
        simp only [runDay, htr]
        rw [Nat.mod_eq_of_lt hnowrap]
        have hrest := ih { w with
            daily_spent := w.daily_spent + a
            nonce := (w.nonce + 1) % U64_MOD }
          hchk hd (fun b hb => ha b (List.mem_cons_of_mem _ hb))
        dsimp only at hrest
        omega
      · obtain ⟨hreset, -, -⟩ := hc
        omega

/-- Claim C5: the claim states that within one calendar day the sum of
accepted transfer amounts never exceeds `daily_limit`.  Under the code's
wrap-around `u64` addition this fails: starting from `baseWallet`
(spent 0, limit 1000), the sequence 600 then 2^64 − 200 is accepted in
full — the second check wraps to 400 ≤ 1000 — so the exact sum of
accepted amounts is 2^64 + 400, far above the limit of 1000. -/
theorem C5_counterexample :
    baseWallet.daily_limit = 1000 ∧
    (runDay 0 baseWallet [600, U64_MOD - 200]).2 = 600 + (U64_MOD - 200) ∧
    baseWallet.daily_limit < (runDay 0 baseWallet [600, U64_MOD - 200]).2 := by
  refine ⟨rfl, rfl, by decide⟩

/-- Claim C5 (amended): provided no addition wraps past 2^64 (each amount
plus the limit stays below 2^64), the sum of accepted amounts within one
day never exceeds `daily_limit`; after every successful transfer the
stored `daily_spent` is within the limit; crossing a day boundary resets
the budget exactly once, lazily, on the first successful touch of the
day (which also advances `last_reset_day`, so later same-day calls do
not reset again); and a same-day transfer whose (wrapped) sum exceeds
the limit fails with `DailyLimitExceeded`, the aborted transaction
committing nothing. -/
theorem C5_amended :
    (∀ (now : Int) (w : SmartWallet) (amounts : List Nat),
      w.daily_spent ≤ w.daily_limit →
      Int.tdiv now 86400 ≤ w.last_reset_day →
      (∀ a ∈ amounts, a + w.daily_limit < U64_MOD) →
      w.daily_spent + (runDay now w amounts).2 ≤ w.daily_limit) ∧
    (∀ (now : Int) (w : SmartWallet) (a : Nat) (w' : SmartWallet),
      transfer_spl now w a = .ok w' → w'.daily_spent ≤ w'.daily_limit) ∧
    (∀ (now : Int) (w : SmartWallet) (a : Nat) (w' : SmartWallet),
      transfer_spl now w a = .ok w' →
      w.last_reset_day < Int.tdiv now 86400 →
      w'.last_reset_day = Int.tdiv now 86400 ∧
      w'.daily_spent = (0 + a) % U64_MOD) ∧
    (∀ (now : Int) (w : SmartWallet) (a : Nat),
      w.is_frozen = false →
      Int.tdiv now 86400 ≤ w.last_reset_day →
      w.daily_limit < (w.daily_spent + a) % U64_MOD →
      transfer_spl now w a = .error .DailyLimitExceeded) := by
  refine ⟨fun now w amounts => runDay_sum_le now amounts w, ?_, ?_, ?_⟩
  · intro now w a w' h
    exact (transfer_spl_ok_facts h).2.2
  · intro now w a w' h hlt
    obtain ⟨-, hc | hc⟩ := transfer_spl_ok_cases h
    · obtain ⟨hle, -, -⟩ := hc
      omega
    · obtain ⟨-, -, rfl⟩ := hc
      exact ⟨rfl, rfl⟩
  · intro now w a hfz hd hover
    unfold transfer_spl spend_checked
    rw [if_neg (by simp [hfz]), if_neg (not_lt.mpr hd),
      if_neg (not_le.mpr hover)]

/-- Claim C5 (amended) witness at the spec's own scenario: limit 1000,
transfers of 600 then 500 on one day — the accepted total stays within
the limit (the 500 is rejected). -/
theorem C5_amended_witness :
    baseWallet.daily_spent + (runDay 0 baseWallet [600, 500]).2 ≤
      baseWallet.daily_limit :=
  C5_amended.1 0 baseWallet [600, 500] (by decide) (by decide) (by decide)
